import Mathlib

/-!
# Verification of the invoice batch automation (`main.py`)

Shallow embedding of the row-to-invoice pipeline of `main.py`:
the row parser (`get`, the inline field extraction in `process_invoices`),
amount digit extraction, the skip/send/mark loop of `process_invoices`,
and the status writer `write_status_back`.

Modelling conventions (ASCII character semantics):
* Python `str` is Lean `String`; per-character operations go through `.data`.
* `str.strip` is `pyStrip` (drop leading/trailing whitespace characters),
  `str.isdigit` is `Char.isDigit` per character, `str.upper` maps
  `Char.toUpper`, `str.startswith` is `pyStartsWith`.
* `float(s)` is only ever applied by the program to the output of the digit
  filter (a nonempty all-digit string, no sign/dot/exponent); on those inputs
  Python's float denotes exactly the written integer, so amounts are modelled
  as `Nat` (`pyFloatDigits`). `f"{x:.2f}"` on such an integer-valued float
  renders as the decimal integer followed by ".00" (`fmtAmount2`).
* The Sheets and Gmail services are an oracle environment `Env`: whether the
  send / status-update API call for a given absolute row index raises, the
  exception text, and the current date/time. Effects are recorded as event
  lists in `RunResult`.
-/

/-- Characters Python `str.strip` removes, modelled as whitespace. -/
def pyWS (c : Char) : Bool := c.isWhitespace

/-- Drop leading whitespace from a character list (left strip). -/
def lstripL (l : List Char) : List Char := l.dropWhile pyWS

/-- Drop trailing whitespace from a character list (right strip). -/
def rstripL (l : List Char) : List Char := (l.reverse.dropWhile pyWS).reverse

/-- Python `s.strip()` on the character list: drop leading and trailing whitespace. -/
def stripL (l : List Char) : List Char := rstripL (lstripL l)

/-- Python `s.strip()`. -/
def pyStrip (s : String) : String := ⟨stripL s.data⟩

/-- Python `s.upper()` (ASCII). -/
def pyUpper (s : String) : String := ⟨s.data.map Char.toUpper⟩

/-- Python `s.startswith(pre)`. -/
def pyStartsWith (s pre : String) : Bool := pre.data.isPrefixOf s.data

/-- Python `s.isdigit()` (ASCII): nonempty and every character a decimal digit. -/
def pyIsDigit (s : String) : Bool := !s.data.isEmpty && s.data.all Char.isDigit

/-- Python `s.replace('.', '', 1)`: remove the first occurrence of a character. -/
def removeFirstL (c : Char) : List Char → List Char
  | [] => []
  | x :: xs => if x = c then xs else x :: removeFirstL c xs

/-- Python `amount.replace('.', '', 1)` from line 260 of `main.py`. -/
def removeFirstDot (s : String) : String := ⟨removeFirstL '.' s.data⟩

/-- Line 241 of `main.py`: `''.join(filter(str.isdigit, amount_raw))`. -/
def extractDigits (s : String) : String := ⟨s.data.filter Char.isDigit⟩

/-- Decimal value of a digit string read left to right (value of Python
`int`/`float` on a nonempty all-digit string). -/
def parseDigitsL (l : List Char) : Nat :=
  l.foldl (fun acc c => acc * 10 + (c.toNat - 48)) 0

/-- Decimal value of a digit string. -/
def parseDigitsS (s : String) : Nat := parseDigitsL s.data

/-- Python `float(s)` restricted to the nonempty all-digit strings this program
feeds it (the output of the digit filter contains no sign, dot or exponent);
on such strings float denotes exactly the written integer. -/
def pyFloatDigits (s : String) : Nat := parseDigitsS s

/-- Line 260 of `main.py`:
`float(amount) if amount and amount.replace('.', '', 1).isdigit() else 0.0`. -/
def amountField (amount : String) : Nat :=
  if amount ≠ "" ∧ pyIsDigit (removeFirstDot amount) then pyFloatDigits amount else 0

/-- The spec's `extractAmount`: digit extraction (line 241) followed by the
numeric conversion (line 260). -/
def extractAmount (s : String) : Nat := amountField (extractDigits s)

/-- Decimal rendering of a natural number, digit characters most significant
first (Python `str(n)` / f-string interpolation of an int), with explicit fuel. -/
def decCharsAux : Nat → Nat → List Char
  | 0, _ => []
  | fuel + 1, n =>
    if n < 10 then [Nat.digitChar n]
    else decCharsAux fuel (n / 10) ++ [Nat.digitChar (n % 10)]

/-- Decimal rendering of a natural number as a string. -/
def natToDec (n : Nat) : String := ⟨decCharsAux (n + 1) n⟩

/-- Python f-string `{x:.2f}` applied to the integer-valued float `n`. -/
def fmtAmount2 (n : Nat) : String := natToDec n ++ ".00"

-- ----------------- configuration constants of main.py -----------------

def SPREADSHEET_ID : String := "1aGXDjQNcQhwasma-SKBb2ih8GDjpDutdV1k1ZvGKC88"

def SHEET_TAB_NAME : String := "Sheet1"

def DATA_RANGE : String := "A2:J"

def COL_Date : Nat := 0

def COL_Full_Name : Nat := 1

def COL_NIC : Nat := 2

def COL_Contact_Number : Nat := 3

def COL_Email_Address : Nat := 4

def COL_Ticket_Price : Nat := 5

def COL_Number_of_Tickets : Nat := 6

def COL_Ticket_ID : Nat := 7

def COL_Table_Number : Nat := 8

def COL_Status : Nat := 9

def BUSINESS_NAME : String := "Skyline Global (Pvt) Ltd."

-- ----------------- row parsing (lines 230-243 of main.py) -----------------

/-- The raw cell at a column, empty when the row is too short (used to state
claims about the source row; the program itself reads cells through `get`). -/
def cellAt (row : List String) (col : Nat) : String := (row.get? col).getD ""

/-- Lines 230-231 of `main.py`:
`row[col].strip() if col < len(row) and row[col] else default`. -/
def getCell (row : List String) (col : Nat) (dflt : String) : String :=
  match row.get? col with
  | some cell => if cell ≠ "" then pyStrip cell else dflt
  | none => dflt

/-- The fields extracted from one row, lines 233-243 of `main.py`. -/
structure ParsedRow where
  client : String
  email : String
  invoice_no : String
  inv_date : String
  due_date : String
  desc : String
  amount_raw : String
  amountDigits : String
  status : String
  deriving Repr, DecidableEq

/-- Lines 233-243 of `main.py`: field extraction for one row. -/
def parseRow (row : List String) : ParsedRow :=
  let amount_raw := getCell row COL_Ticket_Price "0"
  { client := getCell row COL_Full_Name ""
    email := getCell row COL_Email_Address ""
    invoice_no := getCell row COL_Ticket_ID ""
    inv_date := getCell row COL_Date ""
    due_date := ""
    desc := "Tickets: " ++ getCell row COL_Number_of_Tickets "" ++ ", Table: "
      ++ getCell row COL_Table_Number ""
    amount_raw := amount_raw
    amountDigits := extractDigits amount_raw
    status := getCell row COL_Status "" }

-- ----------------- timestamps -----------------

/-- A wall-clock instant at second precision, the data `datetime.now()` /
`datetime.today()` expose to the `strftime` calls of `main.py`. -/
structure PyDateTime where
  year : Nat
  month : Nat
  day : Nat
  hour : Nat
  minute : Nat
  second : Nat
  deriving Repr, DecidableEq

/-- Zero-padded two-digit field of `strftime` (`%m`, `%d`, `%H`, `%M`, `%S`). -/
def pad2 (n : Nat) : String := if n < 10 then "0" ++ natToDec n else natToDec n

/-- Zero-padded four-digit year field of `strftime` (`%Y`). -/
def pad4 (n : Nat) : String :=
  if n < 10 then "000" ++ natToDec n
  else if n < 100 then "00" ++ natToDec n
  else if n < 1000 then "0" ++ natToDec n
  else natToDec n

/-- `strftime("%Y-%m-%d")` (line 257 of `main.py`). -/
def fmtDate (t : PyDateTime) : String :=
  pad4 t.year ++ "-" ++ pad2 t.month ++ "-" ++ pad2 t.day

/-- `strftime("%Y-%m-%d %H:%M:%S")`: timestamp at second precision. -/
def fmtTimestamp (t : PyDateTime) : String :=
  fmtDate t ++ " " ++ pad2 t.hour ++ ":" ++ pad2 t.minute ++ ":" ++ pad2 t.second

/-- Line 283 of `main.py`: `datetime.now().strftime("SENT %Y-%m-%d %H:%M:%S")`. -/
def sentStamp (t : PyDateTime) : String := "SENT " ++ fmtTimestamp t

-- ----------------- external services as an oracle environment -----------------

/-- Oracle for the external Sheets and Gmail services and the clock: for each
absolute row index, whether the Gmail send call and the Sheets status-update
call return without raising, and the exception text when one raises. -/
structure Env where
  sendOk : Nat → Bool
  writeOk : Nat → Bool
  errMsg : Nat → String
  today : PyDateTime
  now : PyDateTime

/-- The invoice dict built on lines 253-262 of `main.py` (the argument of
`generate_invoice_pdf_bytes`). -/
structure Invoice where
  client : String
  email : String
  invoice_no : String
  invoice_date : String
  due_date : String
  desc : String
  amount : Nat
  currency : String
  deriving Repr, DecidableEq

/-- One Gmail send attempt (the arguments of `send_email_with_attachment`). -/
structure SendEvent where
  toAddr : String
  subject : String
  body : String
  filename : String
  deriving Repr, DecidableEq

/-- One Sheets status-update attempt (the arguments of `write_status_back`). -/
structure WriteEvent where
  rowNumber : Nat
  value : String
  deriving Repr, DecidableEq

/-- The observable effects of a run (or of one row): documents rendered, send
attempts, status-write attempts, the processed counter, and log lines. -/
structure RunResult where
  docs : List Invoice
  sends : List SendEvent
  writes : List WriteEvent
  processed : Nat
  logs : List String
  deriving Repr, DecidableEq

/-- Concatenation of run effects in program order. -/
def appendRun (a b : RunResult) : RunResult :=
  { docs := a.docs ++ b.docs
    sends := a.sends ++ b.sends
    writes := a.writes ++ b.writes
    processed := a.processed + b.processed
    logs := a.logs ++ b.logs }

-- ----------------- the per-row body of the loop (lines 228-291) -----------------

/-- Line 270: `EMAIL_SUBJECT_TEMPLATE.format(invoice_no=..., business=...)`. -/
def emailSubject (invoice_no : String) : String :=
  "Invoice #" ++ invoice_no ++ " from " ++ BUSINESS_NAME

/-- Lines 271-279: `EMAIL_BODY_TEMPLATE.format(...)` with `amount=float(amount)`
rendered by `{amount:.2f}`. -/
def emailBody (client invoice_no invoice_date currency : String) (amount : Nat) :
    String :=
  "Hello " ++ client ++ ",\n\nPlease find attached your invoice #" ++ invoice_no
    ++ " dated " ++ invoice_date ++ " for " ++ currency ++ " " ++ fmtAmount2 amount
    ++ ".\n\n\nBest regards,\n" ++ BUSINESS_NAME ++ "\n"

/-- Lines 253-262 of `main.py`: the invoice dict built from the parsed fields. -/
def mkInvoice (env : Env) (p : ParsedRow) : Invoice :=
  { client := p.client
    email := p.email
    invoice_no := p.invoice_no
    invoice_date := if p.inv_date ≠ "" then p.inv_date else fmtDate env.today
    due_date := ""
    desc := p.desc
    amount := amountField p.amountDigits
    currency := "LKR" }

/-- Lines 267-280 of `main.py`: the arguments of the Gmail send call. -/
def mkSend (env : Env) (p : ParsedRow) : SendEvent :=
  { toAddr := p.email
    subject := emailSubject p.invoice_no
    body := emailBody p.client p.invoice_no (mkInvoice env p).invoice_date "LKR"
      (pyFloatDigits p.amountDigits)
    filename := "Invoice_" ++ p.invoice_no ++ ".pdf" }

/-- The skip condition of lines 246-248 of `main.py`:
`if not client or not email or not amount or not invoice_no`. -/
abbrev skipMissing (p : ParsedRow) : Prop :=
  p.client = "" ∨ p.email = "" ∨ p.amountDigits = "" ∨ p.invoice_no = ""

/-- Lines 228-291 of `main.py`: the body of the `for idx, row in enumerate(...)`
loop for one row, at absolute row index `idx`, applied to the already-parsed
fields. Skip checks are lines 246-251; the `try` block is lines 264-291. PDF
rendering (`generate_invoice_pdf_bytes`) is pure in-memory drawing whose only
failure-prone step, the logo, is swallowed (lines 135-140), so it is modelled
as total; the Gmail send and the Sheets status update can raise, per the `Env`
oracle. -/
def processParsed (env : Env) (idx : Nat) (p : ParsedRow) : RunResult :=
  if skipMissing p then
    { docs := [], sends := [], writes := [], processed := 0
      logs := ["Row " ++ natToDec idx ++ ": missing required fields, skipping."] }
  else if pyStartsWith (pyUpper p.status) "SENT" then
    { docs := [], sends := [], writes := [], processed := 0
      logs := ["Row " ++ natToDec idx ++ ": already SENT, skipping."] }
  else
    if env.sendOk idx then
      if env.writeOk idx then
        { docs := [mkInvoice env p], sends := [mkSend env p]
          writes := [⟨idx, sentStamp env.now⟩]
          processed := 1
          logs := ["Row " ++ natToDec idx ++ ": sent to " ++ p.email ++ " ✔"] }
      else
        { docs := [mkInvoice env p], sends := [mkSend env p]
          writes := [⟨idx, sentStamp env.now⟩]
          processed := 0
          logs := ["Row " ++ natToDec idx ++ ": Google API error → "
            ++ env.errMsg idx] }
    else
      { docs := [mkInvoice env p], sends := [mkSend env p], writes := []
        processed := 0
        logs := ["Row " ++ natToDec idx ++ ": Google API error → "
          ++ env.errMsg idx] }

/-- The loop body applied to a raw row: parse (lines 230-243) then act. -/
def processRow (env : Env) (idx : Nat) (row : List String) : RunResult :=
  processParsed env idx (parseRow row)

-- ----------------- the batch loop and entry point -----------------

/-- The `for` loop of `process_invoices`, rows numbered from `idx`. -/
def runRows (env : Env) (idx : Nat) : List (List String) → RunResult
  | [] => { docs := [], sends := [], writes := [], processed := 0, logs := [] }
  | r :: rest => appendRun (processRow env idx r) (runRows env (idx + 1) rest)

/-- Lines 110-117 of `main.py`: the absolute start row parsed from the data
range reference (`int` of the digits of the part before `:`, defaulting to 2). -/
def startRowOfRange (range : String) : Nat :=
  let startPart := range.data.takeWhile (· ≠ ':')
  let ds := startPart.filter Char.isDigit
  if ds.isEmpty then 2 else parseDigitsL ds

/-- Lines 219-293 of `main.py`: `process_invoices`, with the fetched rows and
the service behaviour supplied by the oracle environment. -/
def process_invoices (env : Env) (rows : List (List String)) : RunResult :=
  let start_row := startRowOfRange DATA_RANGE
  if rows.isEmpty then
    { docs := [], sends := [], writes := [], processed := 0
      logs := ["No data rows found."] }
  else
    let res := runRows env start_row rows
    { res with
        logs := res.logs
          ++ ["Done. Processed: " ++ natToDec res.processed ++ " invoice(s)."] }

-- ----------------- the status writer and the Sheets single-cell update -----------------

/-- Line 209 of `main.py`: `f"{SHEET_TAB_NAME}!J{row_number}"`. -/
def statusCellRange (row_number : Nat) : String :=
  SHEET_TAB_NAME ++ "!J" ++ natToDec row_number

/-- Modelled from the spec (external interfaces): the Sheets backend resolves a
single-cell range reference `tab!<column letter><row number>` to a 0-based
column index and a 1-based row number. -/
def parseCellRef (ref : String) : Nat × Nat :=
  let afterTab := (ref.data.dropWhile (· ≠ '!')).drop 1
  match afterTab with
  | [] => (0, 0)
  | c :: ds => (c.toNat - 'A'.toNat, parseDigitsL (ds.takeWhile Char.isDigit))

/-- A spreadsheet tab as a cell map: 1-based row, 0-based column, cell text. -/
def Sheet : Type := Nat → Nat → String

/-- Modelled from the spec (external interfaces): the Sheets `values().update`
call on a single-cell range writes the one value at the referenced cell. -/
def sheetUpdate (sheet : Sheet) (ref : String) (v : String) : Sheet :=
  fun r c =>
    if r = (parseCellRef ref).2 ∧ c = (parseCellRef ref).1 then v else sheet r c

/-- Lines 205-216 of `main.py`: `write_status_back` updates the status column
cell of the given absolute row via a single-cell range update. -/
def write_status_back (sheet : Sheet) (row_number : Nat) (status_text : String) :
    Sheet :=
  sheetUpdate sheet (statusCellRange row_number) status_text

-- ----------------- concrete fixtures -----------------

/-- An environment where every service call succeeds. -/
def env0 : Env :=
  { sendOk := fun _ => true
    writeOk := fun _ => true
    errMsg := fun _ => "HttpError 500"
    today := ⟨2024, 5, 1, 0, 0, 0⟩
    now := ⟨2024, 5, 1, 10, 0, 0⟩ }

/-- An environment where every Gmail send call raises. -/
def envSendFail : Env := { env0 with sendOk := fun _ => false }

/-- The all-success environment at an arbitrary clock instant. -/
def envAt (t : PyDateTime) : Env := { env0 with now := t }

/-- A spreadsheet whose every cell records its own coordinates. -/
def sheet0 : Sheet := fun r c => natToDec r ++ "," ++ natToDec c

/-- The ten-cell row of the end-to-end scenario. -/
def row8 : List String :=
  ["2024-05-01", "Jane Doe", "991234567V", "0771234567", "jane@example.com",
   "5000LKR", "2", "TCK-001", "T3", ""]

/-- The same row truncated to its first five cells (missing trailing columns). -/
def row5 : List String :=
  ["2024-05-01", "Jane Doe", "991234567V", "0771234567", "jane@example.com"]

/-- The scenario row with the price cell present but empty. -/
def rowEmptyPrice : List String :=
  ["2024-05-01", "Jane Doe", "991234567V", "0771234567", "jane@example.com",
   "", "2", "TCK-001", "T3", ""]

/-- The scenario row with a whitespace-only price cell. -/
def rowWSPrice : List String :=
  ["2024-05-01", "Jane Doe", "991234567V", "0771234567", "jane@example.com",
   " ", "2", "TCK-001", "T3", ""]

/-- The scenario row after a successful first run: the status cell holds the
marker written by that run under `env0`. -/
def rowResent : List String :=
  ["2024-05-01", "Jane Doe", "991234567V", "0771234567", "jane@example.com",
   "5000LKR", "2", "TCK-001", "T3", "SENT 2024-05-01 10:00:00"]

-- ----------------- helper lemmas: stripping and digits -----------------

theorem pyWS_not_digit (c : Char) (h : pyWS c = true) : c.isDigit = false := by
  unfold pyWS Char.isWhitespace at h
  simp only [Bool.or_eq_true, decide_eq_true_eq] at h
  rcases h with (((h | h) | h) | h) <;> subst h <;> decide

theorem filter_digit_dropWhileWS (l : List Char) :
    (l.dropWhile pyWS).filter Char.isDigit = l.filter Char.isDigit := by
  induction l with
  | nil => rfl
  | cons c cs ih =>
    by_cases h : pyWS c
    · rw [List.dropWhile_cons, if_pos h, ih, List.filter_cons,
        pyWS_not_digit c h]
      simp
    · rw [List.dropWhile_cons, if_neg h]

theorem filter_digit_stripL (l : List Char) :
    (stripL l).filter Char.isDigit = l.filter Char.isDigit := by
  unfold stripL rstripL lstripL
  rw [List.filter_reverse, filter_digit_dropWhileWS, List.filter_reverse,
    List.reverse_reverse, filter_digit_dropWhileWS]

theorem extractDigits_pyStrip (s : String) :
    extractDigits (pyStrip s) = extractDigits s := by
  unfold extractDigits pyStrip
  exact congrArg String.mk (filter_digit_stripL s.data)

theorem dropWhile_head_not {α : Type} (p : α → Bool) :
    ∀ (l : List α) (c : α) (cs : List α), l.dropWhile p = c :: cs → p c = false := by
  intro l
  induction l with
  | nil => intro c cs h; simp [List.dropWhile] at h
  | cons a as ih =>
    intro c cs h
    rw [List.dropWhile_cons] at h
    by_cases pa : p a
    · rw [if_pos pa] at h; exact ih c cs h
    · rw [if_neg pa] at h
      cases h
      simpa using pa

theorem lstripL_idem (l : List Char) : lstripL (lstripL l) = lstripL l := by
  cases h : lstripL l with
  | nil => rfl
  | cons c cs =>
    have hc := dropWhile_head_not pyWS l c cs h
    unfold lstripL
    rw [List.dropWhile_cons, if_neg (by simp [hc])]

theorem rstripL_cons_of_head (c : Char) (cs : List Char) (h : pyWS c = false) :
    rstripL (c :: cs) = c :: rstripL cs := by
  unfold rstripL
  rw [List.reverse_cons, List.dropWhile_append]
  by_cases hd : (List.dropWhile pyWS cs.reverse).isEmpty
  · rw [if_pos hd, List.dropWhile_cons, if_neg (by simp [h])]
    have h0 : List.dropWhile pyWS cs.reverse = [] := by
      simpa [List.isEmpty_iff] using hd
    simp [h0]
  · rw [if_neg hd, List.reverse_append]
    rfl

theorem lstripL_rstripL_lstripL (l : List Char) :
    lstripL (rstripL (lstripL l)) = rstripL (lstripL l) := by
  cases h : lstripL l with
  | nil => rfl
  | cons c cs =>
    have hc := dropWhile_head_not pyWS l c cs h
    rw [rstripL_cons_of_head c cs hc]
    unfold lstripL
    rw [List.dropWhile_cons, if_neg (by simp [hc])]

theorem rstripL_idem (l : List Char) : rstripL (rstripL l) = rstripL l := by
  show rstripL ((lstripL l.reverse).reverse) = rstripL l
  unfold rstripL
  rw [List.reverse_reverse]
  exact congrArg List.reverse (lstripL_idem l.reverse)

theorem stripL_idem (l : List Char) : stripL (stripL l) = stripL l := by
  unfold stripL
  rw [lstripL_rstripL_lstripL]
  exact rstripL_idem _

theorem pyStrip_idem (s : String) : pyStrip (pyStrip s) = pyStrip s := by
  unfold pyStrip
  exact congrArg String.mk (stripL_idem s.data)

-- ----------------- helper lemmas: the SENT marker survives strip and upper -----------------

theorem stripL_sent (t : List Char) :
    stripL ('S' :: 'E' :: 'N' :: 'T' :: ' ' :: t)
      = 'S' :: 'E' :: 'N' :: 'T' :: rstripL (' ' :: t) := by
  unfold stripL
  have hl : lstripL ('S' :: 'E' :: 'N' :: 'T' :: ' ' :: t)
      = 'S' :: 'E' :: 'N' :: 'T' :: ' ' :: t := by
    unfold lstripL
    rw [List.dropWhile_cons, if_neg (by simp [pyWS])]
  rw [hl, rstripL_cons_of_head _ _ (by decide), rstripL_cons_of_head _ _ (by decide),
    rstripL_cons_of_head _ _ (by decide), rstripL_cons_of_head _ _ (by decide)]

theorem marker_skip_check (x : String) :
    pyStartsWith (pyUpper (pyStrip ("SENT " ++ x))) "SENT" = true := by
  have hdata : ("SENT " ++ x).data = 'S' :: 'E' :: 'N' :: 'T' :: ' ' :: x.data := by
    rw [String.data_append]; rfl
  unfold pyStrip pyUpper pyStartsWith
  rw [hdata, stripL_sent]
  refine (List.isPrefixOf_iff_prefix).mpr ?_
  show ['S', 'E', 'N', 'T'] <+:
    List.map Char.toUpper ('S' :: 'E' :: 'N' :: 'T' :: rstripL (' ' :: x.data))
  rw [List.map_cons, List.map_cons, List.map_cons, List.map_cons,
    show Char.toUpper 'S' = 'S' from by decide, show Char.toUpper 'E' = 'E' from by decide,
    show Char.toUpper 'N' = 'N' from by decide, show Char.toUpper 'T' = 'T' from by decide]
  exact ⟨_, rfl⟩

theorem sentStamp_eq (t : PyDateTime) : sentStamp t = "SENT " ++ fmtTimestamp t := rfl

theorem sentStamp_ne_empty (t : PyDateTime) : sentStamp t ≠ "" := by
  intro h
  have : ("SENT " ++ fmtTimestamp t).data = [] := congrArg String.data h
  rw [String.data_append] at this
  simp at this

-- ----------------- helper lemmas: the cell getter -----------------

theorem getCell_eq_strip_cellAt (row : List String) (col : Nat) :
    getCell row col "" = pyStrip (cellAt row col) := by
  unfold getCell cellAt
  cases h : row.get? col with
  | none => rfl
  | some cell =>
    by_cases hc : cell = ""
    · subst hc; simp; rfl
    · simp [hc]

theorem getCell_of_out_of_range (row : List String) (col : Nat) (d : String)
    (h : row.length ≤ col) : getCell row col d = d := by
  unfold getCell
  rw [List.get?_eq_none.mpr h]

theorem getCell_of_empty_cell (row : List String) (col : Nat) (d : String)
    (h : row.get? col = some "") : getCell row col d = d := by
  unfold getCell
  rw [h]
  simp

theorem getCell_of_cell (row : List String) (col : Nat) (d : String) (cell : String)
    (h : row.get? col = some cell) (hc : cell ≠ "") : getCell row col d = pyStrip cell := by
  unfold getCell
  rw [h]
  simp [hc]

-- ----------------- helper lemmas: decimal digits round trip -----------------

theorem digitChar_isDigit (d : Nat) (h : d < 10) : (Nat.digitChar d).isDigit = true := by
  interval_cases d <;> decide

theorem digitChar_toNat (d : Nat) (h : d < 10) : (Nat.digitChar d).toNat = d + 48 := by
  interval_cases d <;> decide

theorem parseDigitsL_append_last (l : List Char) (c : Char) :
    parseDigitsL (l ++ [c]) = parseDigitsL l * 10 + (c.toNat - 48) := by
  unfold parseDigitsL
  rw [List.foldl_append]
  rfl

theorem decCharsAux_spec (f : Nat) : ∀ n, n < f → parseDigitsL (decCharsAux f n) = n := by
  induction f with
  | zero => intro n h; omega
  | succ f ih =>
    intro n h
    unfold decCharsAux
    by_cases h10 : n < 10
    · rw [if_pos h10]
      show parseDigitsL ([] ++ [Nat.digitChar n]) = n
      rw [parseDigitsL_append_last, digitChar_toNat n h10]
      simp [parseDigitsL]
    · rw [if_neg h10, parseDigitsL_append_last, digitChar_toNat (n % 10) (by omega)]
      have hdiv : n / 10 < f := by omega
      rw [ih (n / 10) hdiv]
      omega

theorem parseDigits_natToDec (n : Nat) : parseDigitsS (natToDec n) = n :=
  decCharsAux_spec (n + 1) n (Nat.lt_succ_self n)

theorem decCharsAux_all_digits (f : Nat) :
    ∀ n, ∀ c ∈ decCharsAux f n, c.isDigit = true := by
  induction f with
  | zero => intro n c hc; simp [decCharsAux] at hc
  | succ f ih =>
    intro n c hc
    unfold decCharsAux at hc
    by_cases h10 : n < 10
    · rw [if_pos h10] at hc
      simp at hc
      subst hc
      exact digitChar_isDigit n h10
    · rw [if_neg h10] at hc
      rcases List.mem_append.mp hc with h | h
      · exact ih (n / 10) c h
      · simp at h
        subst h
        exact digitChar_isDigit (n % 10) (by omega)

theorem natToDec_all_digits (n : Nat) : ∀ c ∈ (natToDec n).data, c.isDigit = true :=
  decCharsAux_all_digits (n + 1) n

-- ----------------- helper lemmas: processRow branches -----------------

theorem processRow_skip_missing (env : Env) (idx : Nat) (row : List String)
    (h : skipMissing (parseRow row)) :
    processRow env idx row =
      { docs := [], sends := [], writes := [], processed := 0
        logs := ["Row " ++ natToDec idx ++ ": missing required fields, skipping."] } := by
  unfold processRow processParsed
  rw [if_pos h]

theorem processRow_skip_sent (env : Env) (idx : Nat) (row : List String)
    (h1 : ¬ skipMissing (parseRow row))
    (h2 : pyStartsWith (pyUpper (parseRow row).status) "SENT" = true) :
    processRow env idx row =
      { docs := [], sends := [], writes := [], processed := 0
        logs := ["Row " ++ natToDec idx ++ ": already SENT, skipping."] } := by
  unfold processRow processParsed
  rw [if_neg h1, if_pos (by simp [h2])]

theorem processRow_pass (env : Env) (idx : Nat) (row : List String)
    (h1 : ¬ skipMissing (parseRow row))
    (h2 : pyStartsWith (pyUpper (parseRow row).status) "SENT" = false) :
    processRow env idx row =
      if env.sendOk idx then
        if env.writeOk idx then
          { docs := [mkInvoice env (parseRow row)], sends := [mkSend env (parseRow row)]
            writes := [⟨idx, sentStamp env.now⟩]
            processed := 1
            logs := ["Row " ++ natToDec idx ++ ": sent to " ++ (parseRow row).email ++ " ✔"] }
        else
          { docs := [mkInvoice env (parseRow row)], sends := [mkSend env (parseRow row)]
            writes := [⟨idx, sentStamp env.now⟩]
            processed := 0
            logs := ["Row " ++ natToDec idx ++ ": Google API error → " ++ env.errMsg idx] }
      else
        { docs := [mkInvoice env (parseRow row)], sends := [mkSend env (parseRow row)]
          writes := []
          processed := 0
          logs := ["Row " ++ natToDec idx ++ ": Google API error → " ++ env.errMsg idx] } := by
  unfold processRow processParsed
  rw [if_neg h1, if_neg (by simp [h2])]

theorem processRow_writes_shape (env : Env) (idx : Nat) (row : List String)
    (w : WriteEvent) (hw : w ∈ (processRow env idx row).writes) :
    w.rowNumber = idx ∧ w.value = sentStamp env.now := by
  by_cases h1 : skipMissing (parseRow row)
  · rw [processRow_skip_missing env idx row h1] at hw
    simp at hw
  · by_cases h2 : pyStartsWith (pyUpper (parseRow row).status) "SENT" = true
    · rw [processRow_skip_sent env idx row h1 h2] at hw
      simp at hw
    · rw [processRow_pass env idx row h1 (by simpa using h2)] at hw
      by_cases hs : env.sendOk idx
      · rw [if_pos hs] at hw
        by_cases hwr : env.writeOk idx
        · rw [if_pos hwr] at hw
          simp at hw
          subst hw
          exact ⟨rfl, rfl⟩
        · rw [if_neg hwr] at hw
          simp at hw
          subst hw
          exact ⟨rfl, rfl⟩
      · rw [if_neg hs] at hw
        simp at hw

theorem processRow_error_logged (env : Env) (idx : Nat) (row : List String)
    (hs : (processRow env idx row).sends ≠ [])
    (hp : (processRow env idx row).processed = 0) :
    (processRow env idx row).logs
      = ["Row " ++ natToDec idx ++ ": Google API error → " ++ env.errMsg idx] := by
  by_cases h1 : skipMissing (parseRow row)
  · rw [processRow_skip_missing env idx row h1] at hs
    simp at hs
  · by_cases h2 : pyStartsWith (pyUpper (parseRow row).status) "SENT" = true
    · rw [processRow_skip_sent env idx row h1 h2] at hs
      simp at hs
    · rw [processRow_pass env idx row h1 (by simpa using h2)] at hp ⊢
      by_cases hso : env.sendOk idx
      · rw [if_pos hso] at hp ⊢
        by_cases hwr : env.writeOk idx
        · rw [if_pos hwr] at hp
          simp at hp
        · rw [if_neg hwr]
      · rw [if_neg hso]

-- ----------------- helper lemmas: strings and digit extraction -----------------

theorem string_eq_empty_iff (s : String) : s = "" ↔ s.data = [] := by
  constructor
  · intro h; subst h; rfl
  · intro h
    cases s with
    | mk l =>
      simp at h
      subst h
      rfl

theorem parseRow_client (row : List String) :
    (parseRow row).client = getCell row COL_Full_Name "" := rfl

theorem parseRow_email (row : List String) :
    (parseRow row).email = getCell row COL_Email_Address "" := rfl

theorem parseRow_invoice_no (row : List String) :
    (parseRow row).invoice_no = getCell row COL_Ticket_ID "" := rfl

theorem parseRow_status (row : List String) :
    (parseRow row).status = getCell row COL_Status "" := rfl

theorem parseRow_amountDigits (row : List String) :
    (parseRow row).amountDigits = extractDigits (getCell row COL_Ticket_Price "0") := rfl

theorem extractDigits_all (s : String) :
    ∀ c ∈ (extractDigits s).data, c.isDigit = true := by
  intro c hc
  exact List.of_mem_filter hc

theorem removeFirstL_of_not_mem (c : Char) (l : List Char) (h : c ∉ l) :
    removeFirstL c l = l := by
  induction l with
  | nil => rfl
  | cons x xs ih =>
    unfold removeFirstL
    rw [if_neg (by rintro rfl; exact h (List.mem_cons_self x xs)),
      ih (fun hm => h (List.mem_cons_of_mem x hm))]

theorem pyIsDigit_of_digits (a : String) (ha : a ≠ "")
    (hd : ∀ c ∈ a.data, c.isDigit = true) :
    pyIsDigit (removeFirstDot a) = true := by
  have hdot : '.' ∉ a.data := by
    intro hm
    have := hd '.' hm
    simp at this
  have hrm : removeFirstDot a = a := by
    unfold removeFirstDot
    rw [removeFirstL_of_not_mem '.' a.data hdot]
  have hne : a.data ≠ [] := fun h => ha ((string_eq_empty_iff a).mpr h)
  unfold pyIsDigit
  rw [hrm]
  simp only [Bool.and_eq_true, Bool.not_eq_true']
  exact ⟨by simpa [List.isEmpty_iff] using hne, List.all_eq_true.mpr hd⟩

theorem amountField_of_digits (a : String) (ha : a ≠ "")
    (hd : ∀ c ∈ a.data, c.isDigit = true) : amountField a = parseDigitsS a := by
  unfold amountField
  rw [if_pos ⟨ha, pyIsDigit_of_digits a ha hd⟩]
  rfl

theorem amountDigits_ne_of_digit (row : List String)
    (h : (cellAt row COL_Ticket_Price).data.any Char.isDigit = true) :
    (parseRow row).amountDigits ≠ "" := by
  obtain ⟨c, hc, hd⟩ := List.any_eq_true.mp h
  rw [parseRow_amountDigits]
  cases hget : row.get? COL_Ticket_Price with
  | none =>
    exfalso
    unfold cellAt at hc
    rw [hget] at hc
    simp at hc
  | some cell =>
    have hcell : cellAt row COL_Ticket_Price = cell := by
      unfold cellAt
      rw [hget]
      rfl
    rw [hcell] at hc
    have hcne : cell ≠ "" := by
      intro he
      rw [he] at hc
      simp at hc
    rw [getCell_of_cell row COL_Ticket_Price "0" cell hget hcne, extractDigits_pyStrip]
    intro he
    have : (extractDigits cell).data = [] := (string_eq_empty_iff _).mp he
    have hmem : c ∈ (extractDigits cell).data := by
      unfold extractDigits
      simpa using List.mem_filter.mpr ⟨hc, hd⟩
    rw [this] at hmem
    simp at hmem

theorem marker_upper_check (x : String) :
    pyStartsWith (pyUpper ("SENT " ++ x)) "SENT" = true := by
  have hdata : ("SENT " ++ x).data = 'S' :: 'E' :: 'N' :: 'T' :: ' ' :: x.data := by
    rw [String.data_append]; rfl
  unfold pyUpper pyStartsWith
  rw [hdata]
  refine (List.isPrefixOf_iff_prefix).mpr ?_
  show ['S', 'E', 'N', 'T'] <+:
    List.map Char.toUpper ('S' :: 'E' :: 'N' :: 'T' :: ' ' :: x.data)
  rw [List.map_cons, List.map_cons, List.map_cons, List.map_cons,
    show Char.toUpper 'S' = 'S' from by decide, show Char.toUpper 'E' = 'E' from by decide,
    show Char.toUpper 'N' = 'N' from by decide, show Char.toUpper 'T' = 'T' from by decide]
  exact ⟨_, rfl⟩

-- ----------------- helper lemmas: the batch loop -----------------

theorem runRows_nil (env : Env) (idx : Nat) :
    runRows env idx [] = { docs := [], sends := [], writes := [], processed := 0, logs := [] } :=
  rfl

theorem runRows_cons (env : Env) (idx : Nat) (r : List String) (rest : List (List String)) :
    runRows env idx (r :: rest) = appendRun (processRow env idx r) (runRows env (idx + 1) rest) :=
  rfl

theorem runRows_mem_of_proj {α : Type} (acc : RunResult → List α)
    (hacc : ∀ a b, acc (appendRun a b) = acc a ++ acc b)
    (env : Env) (rows : List (List String)) :
    ∀ (idx i : Nat), i < rows.length →
      ∀ x ∈ acc (processRow env (idx + i) (rows.getD i [])),
        x ∈ acc (runRows env idx rows) := by
  induction rows with
  | nil => intro idx i h; simp at h
  | cons r rest ih =>
    intro idx i h x hx
    rw [runRows_cons, hacc]
    cases i with
    | zero =>
      apply List.mem_append_left
      simpa using hx
    | succ j =>
      apply List.mem_append_right
      have hj : j < rest.length := by simpa using h
      have heq : idx + (j + 1) = (idx + 1) + j := by omega
      rw [heq, List.getD_cons_succ] at hx
      exact ih (idx + 1) j hj x hx

theorem runRows_processed (env : Env) (rows : List (List String)) :
    ∀ idx : Nat, (runRows env idx rows).processed
      = ((List.range rows.length).map
          (fun i => (processRow env (idx + i) (rows.getD i [])).processed)).sum := by
  induction rows with
  | nil => intro idx; rfl
  | cons r rest ih =>
    intro idx
    rw [runRows_cons]
    show (processRow env idx r).processed + (runRows env (idx + 1) rest).processed = _
    rw [ih (idx + 1)]
    rw [show (r :: rest).length = rest.length + 1 from rfl, List.range_succ_eq_map,
      List.map_cons, List.map_map, List.sum_cons]
    have hfun : (fun i => (processRow env (idx + 1 + i) (rest.getD i [])).processed)
        = ((fun i => (processRow env (idx + i) ((r :: rest).getD i [])).processed)
            ∘ Nat.succ) := by
      funext j
      show (processRow env ((idx + 1) + j) (rest.getD j [])).processed
        = (processRow env (idx + (j + 1)) ((r :: rest).getD (j + 1) [])).processed
      rw [List.getD_cons_succ, show idx + (j + 1) = (idx + 1) + j from by omega]
    rw [← hfun]
    congr 1

theorem process_invoices_of_ne (env : Env) (rows : List (List String)) (h : rows ≠ []) :
    process_invoices env rows =
      { runRows env (startRowOfRange DATA_RANGE) rows with
          logs := (runRows env (startRowOfRange DATA_RANGE) rows).logs
            ++ ["Done. Processed: "
                ++ natToDec (runRows env (startRowOfRange DATA_RANGE) rows).processed
                ++ " invoice(s)."] } := by
  unfold process_invoices
  rw [if_neg (by simpa [List.isEmpty_iff] using h)]

-- ----------------- helper lemmas: the status cell reference -----------------

theorem parseCellRef_statusCellRange (n : Nat) :
    parseCellRef (statusCellRange n) = (9, n) := by
  have hdata : (statusCellRange n).data
      = 'S' :: 'h' :: 'e' :: 'e' :: 't' :: '1' :: '!' :: 'J' :: (natToDec n).data := by
    unfold statusCellRange
    rw [String.data_append, String.data_append]
    rfl
  unfold parseCellRef
  rw [hdata]
  have hdrop : List.dropWhile (fun c => decide (c ≠ '!'))
      ('S' :: 'h' :: 'e' :: 'e' :: 't' :: '1' :: '!' :: 'J' :: (natToDec n).data)
      = '!' :: 'J' :: (natToDec n).data := by
    rw [List.dropWhile_cons, if_pos (by decide), List.dropWhile_cons, if_pos (by decide),
      List.dropWhile_cons, if_pos (by decide), List.dropWhile_cons, if_pos (by decide),
      List.dropWhile_cons, if_pos (by decide), List.dropWhile_cons, if_pos (by decide),
      List.dropWhile_cons, if_neg (by decide)]
  rw [hdrop]
  show ('J'.toNat - 'A'.toNat, parseDigitsL ((natToDec n).data.takeWhile Char.isDigit))
    = (9, n)
  rw [List.takeWhile_eq_self_iff.mpr (natToDec_all_digits n)]
  have h2 : parseDigitsL (natToDec n).data = n := parseDigits_natToDec n
  rw [h2]
  exact congrArg (fun k => (k, n)) (by decide : 'J'.toNat - 'A'.toNat = 9)

theorem write_status_back_spec (sheet : Sheet) (n : Nat) (v : String) :
    write_status_back sheet n v n COL_Status = v ∧
    ∀ r c : Nat, ¬(r = n ∧ c = COL_Status) → write_status_back sheet n v r c = sheet r c := by
  unfold write_status_back sheetUpdate
  rw [parseCellRef_statusCellRange]
  constructor
  · rw [if_pos ⟨rfl, rfl⟩]
  · intro r c hrc
    rw [if_neg (by
      rintro ⟨rfl, rfl⟩
      exact hrc ⟨rfl, rfl⟩)]

-- ===================== claim theorems =====================

/-- C3: Amount extraction, for every input string, concatenates exactly the
decimal-digit characters of the raw price cell in order, discarding all other
characters; if no digit remains the amount is 0.0, otherwise the amount is the
floating-point parse of the digit string (exactly the denoted integer, modelled
as a natural number). In particular extraction of "5,000LKR" yields 5000.0, and
extraction of "" or "LKR" yields 0.0. -/
theorem claim_C3_amount_extraction :
    (∀ s : String, (extractDigits s).data = s.data.filter Char.isDigit) ∧
    (∀ s : String, extractDigits s = "" → extractAmount s = 0) ∧
    (∀ s : String, extractDigits s ≠ "" →
      extractAmount s = parseDigitsS (extractDigits s)) ∧
    extractAmount "5,000LKR" = 5000 ∧ extractAmount "" = 0 ∧ extractAmount "LKR" = 0 := by
  refine ⟨fun s => rfl, fun s h => ?_, fun s h => ?_, by decide, by decide, by decide⟩
  · unfold extractAmount
    rw [h]
    decide
  · unfold extractAmount
    exact amountField_of_digits (extractDigits s) h (extractDigits_all s)

/-- Witness for C3 at the concrete inputs "5,000LKR" and "LKR". -/
theorem claim_C3_amount_extraction_witness :
    (extractDigits "5,000LKR" ≠ "" ∧
      extractAmount "5,000LKR" = parseDigitsS (extractDigits "5,000LKR")) ∧
    (extractDigits "LKR" = "" ∧ extractAmount "LKR" = 0) :=
  ⟨⟨by decide, claim_C3_amount_extraction.2.2.1 "5,000LKR" (by decide)⟩,
   ⟨by decide, claim_C3_amount_extraction.2.1 "LKR" (by decide)⟩⟩

/-- C10: for every row that passes the skip checks (equivalently, for which a
document is generated), the digit-extracted amount string is nonempty and
all-digit, the guard of line 260 holds (so the 0.0 fallback branch is
unreachable), and the amount is the exact natural-number value of the digit
string (hence a non-negative integer-valued float). -/
theorem claim_C10_fallback_unreachable :
    ∀ (env : Env) (idx : Nat) (row : List String),
      (processRow env idx row).docs ≠ [] →
      (parseRow row).amountDigits ≠ "" ∧
      (∀ c ∈ (parseRow row).amountDigits.data, c.isDigit = true) ∧
      ((parseRow row).amountDigits ≠ "" ∧
        pyIsDigit (removeFirstDot (parseRow row).amountDigits) = true) ∧
      amountField (parseRow row).amountDigits
        = parseDigitsS (parseRow row).amountDigits := by
  intro env idx row hdocs
  have hnm : ¬ skipMissing (parseRow row) := by
    intro h
    rw [processRow_skip_missing env idx row h] at hdocs
    exact hdocs rfl
  have hne : (parseRow row).amountDigits ≠ "" := by
    intro h
    exact hnm (Or.inr (Or.inr (Or.inl h)))
  have hall : ∀ c ∈ (parseRow row).amountDigits.data, c.isDigit = true := by
    rw [parseRow_amountDigits]
    exact extractDigits_all _
  exact ⟨hne, hall, ⟨hne, pyIsDigit_of_digits _ hne hall⟩,
    amountField_of_digits _ hne hall⟩

/-- Witness for C10 at the end-to-end scenario row. -/
theorem claim_C10_fallback_unreachable_witness :
    (processRow env0 2 row8).docs ≠ [] ∧
    ((parseRow row8).amountDigits ≠ "" ∧
      (∀ c ∈ (parseRow row8).amountDigits.data, c.isDigit = true) ∧
      ((parseRow row8).amountDigits ≠ "" ∧
        pyIsDigit (removeFirstDot (parseRow row8).amountDigits) = true) ∧
      amountField (parseRow row8).amountDigits
        = parseDigitsS (parseRow row8).amountDigits) :=
  ⟨by decide, claim_C10_fallback_unreachable env0 2 row8 (by decide)⟩

/-- C5: row parsing is total and default-driven: a missing or out-of-range cell
resolves to the given default, a present nonempty cell is whitespace-trimmed,
every extracted value is trimmed (as long as the default itself is), and the
five-cell row parses to a record using the defaults ("" everywhere, "0" for the
price column) for the missing trailing columns. -/
theorem claim_C5_parsing_total :
    (∀ (row : List String) (col : Nat) (d : String),
      row.length ≤ col → getCell row col d = d) ∧
    (∀ (row : List String) (col : Nat) (d : String),
      row.get? col = some "" → getCell row col d = d) ∧
    (∀ (row : List String) (col : Nat) (d cell : String),
      row.get? col = some cell → cell ≠ "" → getCell row col d = pyStrip cell) ∧
    (∀ (row : List String) (col : Nat) (d : String),
      pyStrip d = d → pyStrip (getCell row col d) = getCell row col d) ∧
    parseRow row5 =
      { client := "Jane Doe", email := "jane@example.com", invoice_no := ""
        inv_date := "2024-05-01", due_date := "", desc := "Tickets: , Table: "
        amount_raw := "0", amountDigits := "0", status := "" } := by
  refine ⟨getCell_of_out_of_range, getCell_of_empty_cell,
    fun row col d cell h hc => getCell_of_cell row col d cell h hc,
    fun row col d hd => ?_, by decide⟩
  unfold getCell
  cases h : row.get? col with
  | none => exact hd
  | some cell =>
    by_cases hc : cell = ""
    · simp [hc, hd]
    · simp [hc, pyStrip_idem]

/-- Witness for C5: an out-of-range column of the five-cell row resolves to the
default, and the extracted price value is trimmed. -/
theorem claim_C5_parsing_total_witness :
    (row5.length ≤ 7 ∧ getCell row5 7 "" = "") ∧
    (pyStrip "0" = "0" ∧ pyStrip (getCell row5 5 "0") = getCell row5 5 "0") :=
  ⟨⟨by decide, claim_C5_parsing_total.1 row5 7 "" (by decide)⟩,
   ⟨by decide, claim_C5_parsing_total.2.2.2.1 row5 5 "0" (by decide)⟩⟩

/-- C1: every row whose client, email and invoice-number cells are nonempty
after trimming, whose price cell contains at least one decimal digit, and whose
trimmed status text does not case-insensitively start with "SENT", is processed:
a document is generated and a send is attempted for it. -/
theorem claim_C1_processable_rows_processed :
    ∀ (env : Env) (idx : Nat) (row : List String),
      pyStrip (cellAt row COL_Full_Name) ≠ "" →
      pyStrip (cellAt row COL_Email_Address) ≠ "" →
      pyStrip (cellAt row COL_Ticket_ID) ≠ "" →
      (cellAt row COL_Ticket_Price).data.any Char.isDigit = true →
      pyStartsWith (pyUpper (pyStrip (cellAt row COL_Status))) "SENT" = false →
      (processRow env idx row).docs ≠ [] ∧ (processRow env idx row).sends ≠ [] := by
  intro env idx row hclient hemail hno hprice hstatus
  have h1 : ¬ skipMissing (parseRow row) := by
    intro h
    rcases h with h | h | h | h
    · rw [parseRow_client, getCell_eq_strip_cellAt] at h
      exact hclient h
    · rw [parseRow_email, getCell_eq_strip_cellAt] at h
      exact hemail h
    · exact amountDigits_ne_of_digit row hprice h
    · rw [parseRow_invoice_no, getCell_eq_strip_cellAt] at h
      exact hno h
  have h2 : pyStartsWith (pyUpper (parseRow row).status) "SENT" = false := by
    rw [parseRow_status, getCell_eq_strip_cellAt]
    exact hstatus
  rw [processRow_pass env idx row h1 h2]
  by_cases hso : env.sendOk idx
  · rw [if_pos hso]
    by_cases hwr : env.writeOk idx
    · rw [if_pos hwr]
      exact ⟨by simp, by simp⟩
    · rw [if_neg hwr]
      exact ⟨by simp, by simp⟩
  · rw [if_neg hso]
    exact ⟨by simp, by simp⟩

/-- Witness for C1 at the end-to-end scenario row. -/
theorem claim_C1_processable_rows_processed_witness :
    (pyStrip (cellAt row8 COL_Full_Name) ≠ "" ∧
      (cellAt row8 COL_Ticket_Price).data.any Char.isDigit = true) ∧
    ((processRow env0 2 row8).docs ≠ [] ∧ (processRow env0 2 row8).sends ≠ []) :=
  ⟨⟨by decide, by decide⟩,
   claim_C1_processable_rows_processed env0 2 row8 (by decide) (by decide) (by decide)
     (by decide) (by decide)⟩

/-- C2 counterexample: the scenario row with a present-but-empty price cell
fails the claimed processability condition "price cell contains at least one
decimal digit", yet the orchestrator does attempt a send for it (the empty cell
resolves to the default "0", whose digit extraction is nonempty). -/
theorem claim_C2_counterexample :
    (pyStrip (cellAt rowEmptyPrice COL_Full_Name) ≠ "" ∧
      pyStrip (cellAt rowEmptyPrice COL_Email_Address) ≠ "" ∧
      pyStrip (cellAt rowEmptyPrice COL_Ticket_ID) ≠ "" ∧
      (cellAt rowEmptyPrice COL_Ticket_Price).data.any Char.isDigit = false ∧
      pyStartsWith (pyUpper (pyStrip (cellAt rowEmptyPrice COL_Status))) "SENT" = false) ∧
    (processRow env0 2 rowEmptyPrice).sends ≠ [] := by
  constructor
  · exact ⟨by decide, by decide, by decide, by decide, by decide⟩
  · decide

/-- C2 (amended): for every row with an empty trimmed client, email or
invoice-number field, or whose price field — the price cell defaulted to "0"
when absent or empty, then trimmed — has an empty digit extraction, or whose
trimmed status text case-insensitively starts with "SENT", no send is attempted
and no status-cell write is attempted. -/
theorem claim_C2_skipped_rows_untouched :
    ∀ (env : Env) (idx : Nat) (row : List String),
      (pyStrip (cellAt row COL_Full_Name) = "" ∨
       pyStrip (cellAt row COL_Email_Address) = "" ∨
       pyStrip (cellAt row COL_Ticket_ID) = "" ∨
       extractDigits (getCell row COL_Ticket_Price "0") = "" ∨
       pyStartsWith (pyUpper (pyStrip (cellAt row COL_Status))) "SENT" = true) →
      (processRow env idx row).sends = [] ∧ (processRow env idx row).writes = [] := by
  intro env idx row h
  by_cases hm : skipMissing (parseRow row)
  · rw [processRow_skip_missing env idx row hm]
    exact ⟨rfl, rfl⟩
  · have hsent : pyStartsWith (pyUpper (parseRow row).status) "SENT" = true := by
      rcases h with h | h | h | h | h
      · exact absurd (Or.inl (by rw [parseRow_client, getCell_eq_strip_cellAt]; exact h)) hm
      · exact absurd (Or.inr (Or.inl
          (by rw [parseRow_email, getCell_eq_strip_cellAt]; exact h))) hm
      · exact absurd (Or.inr (Or.inr (Or.inr
          (by rw [parseRow_invoice_no, getCell_eq_strip_cellAt]; exact h)))) hm
      · exact absurd (Or.inr (Or.inr (Or.inl
          (by rw [parseRow_amountDigits]; exact h)))) hm
      · rw [parseRow_status, getCell_eq_strip_cellAt]
        exact h
    rw [processRow_skip_sent env idx row hm hsent]
    exact ⟨rfl, rfl⟩

/-- Witness for C2 (amended): a whitespace-only price cell gives an empty digit
extraction, and the row is left untouched. -/
theorem claim_C2_skipped_rows_untouched_witness :
    extractDigits (getCell rowWSPrice COL_Ticket_Price "0") = "" ∧
    ((processRow env0 2 rowWSPrice).sends = [] ∧
      (processRow env0 2 rowWSPrice).writes = []) :=
  ⟨by decide,
   claim_C2_skipped_rows_untouched env0 2 rowWSPrice
     (Or.inr (Or.inr (Or.inr (Or.inl (by decide)))))⟩

/-- C9: the asymmetry of the price-column default. For a row whose client,
email and invoice-number cells are nonempty after trimming and whose trimmed
status does not start with "SENT": if the price cell is absent or present as
the empty string, it resolves to the default "0", which contains a digit, so
the row is processed with amount 0.0; whereas a nonempty price cell consisting
only of whitespace trims to the empty string, bypasses the default, yields an
empty digit extraction, and the row is skipped as missing required fields. -/
theorem claim_C9_price_default_asymmetry :
    ∀ (env : Env) (idx : Nat) (row : List String),
      pyStrip (cellAt row COL_Full_Name) ≠ "" →
      pyStrip (cellAt row COL_Email_Address) ≠ "" →
      pyStrip (cellAt row COL_Ticket_ID) ≠ "" →
      pyStartsWith (pyUpper (pyStrip (cellAt row COL_Status))) "SENT" = false →
      ((row.get? COL_Ticket_Price = none ∨ row.get? COL_Ticket_Price = some "" →
         getCell row COL_Ticket_Price "0" = "0" ∧
         (processRow env idx row).sends ≠ [] ∧
         (processRow env idx row).docs.map Invoice.amount = [0]) ∧
       (∀ p : String, row.get? COL_Ticket_Price = some p → p ≠ "" → pyStrip p = "" →
         (processRow env idx row).sends = [] ∧
         (processRow env idx row).logs
           = ["Row " ++ natToDec idx ++ ": missing required fields, skipping."])) := by
  intro env idx row hclient hemail hno hstatus
  constructor
  · intro hprice
    have hraw : getCell row COL_Ticket_Price "0" = "0" := by
      rcases hprice with h | h
      · unfold getCell
        rw [h]
      · exact getCell_of_empty_cell row COL_Ticket_Price "0" h
    have hdig : (parseRow row).amountDigits = "0" := by
      rw [parseRow_amountDigits, hraw]
      decide
    have h1 : ¬ skipMissing (parseRow row) := by
      intro h
      rcases h with h | h | h | h
      · rw [parseRow_client, getCell_eq_strip_cellAt] at h
        exact hclient h
      · rw [parseRow_email, getCell_eq_strip_cellAt] at h
        exact hemail h
      · rw [hdig] at h
        exact absurd h (by decide)
      · rw [parseRow_invoice_no, getCell_eq_strip_cellAt] at h
        exact hno h
    have h2 : pyStartsWith (pyUpper (parseRow row).status) "SENT" = false := by
      rw [parseRow_status, getCell_eq_strip_cellAt]
      exact hstatus
    refine ⟨hraw, ?_⟩
    rw [processRow_pass env idx row h1 h2]
    have hamount : amountField (parseRow row).amountDigits = 0 := by
      rw [hdig]
      decide
    by_cases hso : env.sendOk idx
    · rw [if_pos hso]
      by_cases hwr : env.writeOk idx
      · rw [if_pos hwr]
        exact ⟨by simp, by simp [mkInvoice, hamount]⟩
      · rw [if_neg hwr]
        exact ⟨by simp, by simp [mkInvoice, hamount]⟩
    · rw [if_neg hso]
      exact ⟨by simp, by simp [mkInvoice, hamount]⟩
  · intro p hp hpne hpstrip
    have hraw : getCell row COL_Ticket_Price "0" = "" := by
      rw [getCell_of_cell row COL_Ticket_Price "0" p hp hpne]
      exact hpstrip
    have hdig : (parseRow row).amountDigits = "" := by
      rw [parseRow_amountDigits, hraw]
      decide
    have hm : skipMissing (parseRow row) := Or.inr (Or.inr (Or.inl hdig))
    rw [processRow_skip_missing env idx row hm]
    exact ⟨rfl, rfl⟩

/-- Witness for C9: the empty-price row is processed with amount 0, the
whitespace-price row is skipped as missing required fields. -/
theorem claim_C9_price_default_asymmetry_witness :
    (rowEmptyPrice.get? COL_Ticket_Price = some "" ∧
      getCell rowEmptyPrice COL_Ticket_Price "0" = "0" ∧
      (processRow env0 2 rowEmptyPrice).sends ≠ [] ∧
      (processRow env0 2 rowEmptyPrice).docs.map Invoice.amount = [0]) ∧
    (rowWSPrice.get? COL_Ticket_Price = some " " ∧
      (processRow env0 2 rowWSPrice).sends = [] ∧
      (processRow env0 2 rowWSPrice).logs
        = ["Row " ++ natToDec 2 ++ ": missing required fields, skipping."]) :=
  ⟨⟨by decide,
    (claim_C9_price_default_asymmetry env0 2 rowEmptyPrice (by decide) (by decide)
      (by decide) (by decide)).1 (Or.inr (by decide))⟩,
   ⟨by decide,
    (claim_C9_price_default_asymmetry env0 2 rowWSPrice (by decide) (by decide)
      (by decide) (by decide)).2 " " (by decide) (by decide) (by decide)⟩⟩

/-- C4: round trip of the status marker. Every status-write event produced by
processing a row carries a marker that case-insensitively starts with "SENT",
and re-running the batch body on any row whose status cell holds that marker
attempts no send and no status write — processing the same row twice sends at
most once. -/
theorem claim_C4_status_round_trip :
    ∀ (env : Env) (idx : Nat) (row : List String) (w : WriteEvent),
      w ∈ (processRow env idx row).writes →
      pyStartsWith (pyUpper w.value) "SENT" = true ∧
      ∀ (env' : Env) (idx' : Nat) (row' : List String),
        row'.get? COL_Status = some w.value →
        (processRow env' idx' row').sends = [] ∧
        (processRow env' idx' row').writes = [] := by
  intro env idx row w hw
  obtain ⟨hrow, hval⟩ := processRow_writes_shape env idx row w hw
  rw [hval, sentStamp_eq]
  refine ⟨marker_upper_check _, ?_⟩
  intro env' idx' row' hst
  have hstatus : (parseRow row').status = pyStrip ("SENT " ++ fmtTimestamp env.now) := by
    rw [parseRow_status]
    exact getCell_of_cell row' COL_Status "" _ hst
      (by rw [← sentStamp_eq]; exact sentStamp_ne_empty env.now)
  by_cases hm : skipMissing (parseRow row')
  · rw [processRow_skip_missing env' idx' row' hm]
    exact ⟨rfl, rfl⟩
  · have h2 : pyStartsWith (pyUpper (parseRow row').status) "SENT" = true := by
      rw [hstatus]
      exact marker_skip_check _
    rw [processRow_skip_sent env' idx' row' hm h2]
    exact ⟨rfl, rfl⟩

/-- Witness for C4: the first run on the scenario row writes the marker, and a
second run on the row carrying that marker attempts neither send nor write. -/
theorem claim_C4_status_round_trip_witness :
    ((⟨2, "SENT 2024-05-01 10:00:00"⟩ : WriteEvent) ∈ (processRow env0 2 row8).writes) ∧
    pyStartsWith (pyUpper "SENT 2024-05-01 10:00:00") "SENT" = true ∧
    ((processRow env0 3 rowResent).sends = [] ∧
      (processRow env0 3 rowResent).writes = []) :=
  ⟨by decide,
   (claim_C4_status_round_trip env0 2 row8 ⟨2, "SENT 2024-05-01 10:00:00"⟩ (by decide)).1,
   (claim_C4_status_round_trip env0 2 row8 ⟨2, "SENT 2024-05-01 10:00:00"⟩
     (by decide)).2 env0 3 rowResent (by decide)⟩

/-- C7: every status-write event of a processed row targets exactly that row's
absolute index with the marker "SENT " plus the current timestamp at second
precision, and `write_status_back` updates exactly the status-column cell
(column J, index 9) of that row, overwriting any prior value and leaving every
other cell of the spreadsheet unchanged. -/
theorem claim_C7_status_write_frame :
    ∀ (env : Env) (idx : Nat) (row : List String) (w : WriteEvent),
      w ∈ (processRow env idx row).writes →
      w.rowNumber = idx ∧
      w.value = "SENT " ++ fmtTimestamp env.now ∧
      ∀ sheet : Sheet,
        write_status_back sheet w.rowNumber w.value w.rowNumber COL_Status = w.value ∧
        ∀ r c : Nat, ¬(r = w.rowNumber ∧ c = COL_Status) →
          write_status_back sheet w.rowNumber w.value r c = sheet r c := by
  intro env idx row w hw
  obtain ⟨h1, h2⟩ := processRow_writes_shape env idx row w hw
  exact ⟨h1, by rw [h2, sentStamp_eq],
    fun sheet => write_status_back_spec sheet w.rowNumber w.value⟩

/-- Witness for C7: writing the marker to row 2 of a concrete sheet changes the
status cell of row 2 and leaves cell (1, 1) unchanged. -/
theorem claim_C7_status_write_frame_witness :
    ((⟨2, "SENT 2024-05-01 10:00:00"⟩ : WriteEvent) ∈ (processRow env0 2 row8).writes) ∧
    write_status_back sheet0 2 "SENT 2024-05-01 10:00:00" 2 COL_Status
      = "SENT 2024-05-01 10:00:00" ∧
    write_status_back sheet0 2 "SENT 2024-05-01 10:00:00" 1 1 = sheet0 1 1 := by
  have h := claim_C7_status_write_frame env0 2 row8 ⟨2, "SENT 2024-05-01 10:00:00"⟩
    (by decide)
  exact ⟨by decide, (h.2.2 sheet0).1, (h.2.2 sheet0).2 1 1 (by decide)⟩

/-- C6: per-row error isolation and final reporting. In every nonempty batch:
a row that entered the try block (a send was attempted) but did not complete
is logged with exactly its absolute row index and the API error text, and that
log line appears in the run's output; every row's send attempts appear in the
run's output regardless of other rows' failures; the reported processed count
is the sum of the per-row success indicators; and the final summary line
reporting that count is in the run's output. -/
theorem claim_C6_failure_isolation :
    ∀ (env : Env) (rows : List (List String)), rows ≠ [] →
      (∀ i : Nat, i < rows.length →
        (processRow env (startRowOfRange DATA_RANGE + i) (rows.getD i [])).sends ≠ [] →
        (processRow env (startRowOfRange DATA_RANGE + i) (rows.getD i [])).processed = 0 →
        (processRow env (startRowOfRange DATA_RANGE + i) (rows.getD i [])).logs
            = ["Row " ++ natToDec (startRowOfRange DATA_RANGE + i)
                ++ ": Google API error → " ++ env.errMsg (startRowOfRange DATA_RANGE + i)] ∧
          ("Row " ++ natToDec (startRowOfRange DATA_RANGE + i)
              ++ ": Google API error → " ++ env.errMsg (startRowOfRange DATA_RANGE + i))
            ∈ (process_invoices env rows).logs) ∧
      (∀ i : Nat, i < rows.length →
        ∀ x ∈ (processRow env (startRowOfRange DATA_RANGE + i) (rows.getD i [])).sends,
          x ∈ (process_invoices env rows).sends) ∧
      (process_invoices env rows).processed
        = ((List.range rows.length).map
            (fun i => (processRow env (startRowOfRange DATA_RANGE + i)
              (rows.getD i [])).processed)).sum ∧
      ("Done. Processed: " ++ natToDec (process_invoices env rows).processed
          ++ " invoice(s).") ∈ (process_invoices env rows).logs := by
  intro env rows hne
  rw [process_invoices_of_ne env rows hne]
  refine ⟨?_, ?_, ?_, ?_⟩
  · intro i hi hs hp
    have hlog := processRow_error_logged env (startRowOfRange DATA_RANGE + i)
      (rows.getD i []) hs hp
    refine ⟨hlog, ?_⟩
    have hmem : ("Row " ++ natToDec (startRowOfRange DATA_RANGE + i)
        ++ ": Google API error → " ++ env.errMsg (startRowOfRange DATA_RANGE + i))
        ∈ (processRow env (startRowOfRange DATA_RANGE + i) (rows.getD i [])).logs := by
      rw [hlog]
      exact List.mem_singleton.mpr rfl
    have hin := runRows_mem_of_proj RunResult.logs (fun a b => rfl) env rows
      (startRowOfRange DATA_RANGE) i hi _ hmem
    exact List.mem_append_left _ hin
  · intro i hi x hx
    exact runRows_mem_of_proj RunResult.sends (fun a b => rfl) env rows
      (startRowOfRange DATA_RANGE) i hi x hx
  · exact runRows_processed env rows (startRowOfRange DATA_RANGE)
  · exact List.mem_append_right _ (List.mem_singleton.mpr rfl)

/-- Witness for C6: a single-row batch whose send call raises is logged with
row index 2, and the summary line reports zero processed rows. -/
theorem claim_C6_failure_isolation_witness :
    ((processRow envSendFail (startRowOfRange DATA_RANGE + 0) ([row8].getD 0 [])).sends ≠ [] ∧
      (processRow envSendFail (startRowOfRange DATA_RANGE + 0) ([row8].getD 0 [])).processed = 0) ∧
    ((processRow envSendFail (startRowOfRange DATA_RANGE + 0) ([row8].getD 0 [])).logs
        = ["Row " ++ natToDec (startRowOfRange DATA_RANGE + 0)
            ++ ": Google API error → " ++ envSendFail.errMsg (startRowOfRange DATA_RANGE + 0)] ∧
      ("Row " ++ natToDec (startRowOfRange DATA_RANGE + 0)
          ++ ": Google API error → " ++ envSendFail.errMsg (startRowOfRange DATA_RANGE + 0))
        ∈ (process_invoices envSendFail [row8]).logs) ∧
    ("Done. Processed: " ++ natToDec (process_invoices envSendFail [row8]).processed
        ++ " invoice(s).") ∈ (process_invoices envSendFail [row8]).logs :=
  ⟨⟨by decide, by decide⟩,
   (claim_C6_failure_isolation envSendFail [row8] (by decide)).1 0 (by decide)
     (by decide) (by decide),
   (claim_C6_failure_isolation envSendFail [row8] (by decide)).2.2.2⟩

/-- C8: the end-to-end scenario. The ten-cell row parses to the expected
record (client "Jane Doe", email "jane@example.com", invoice number "TCK-001",
raw price "5000LKR" extracting to "5000" i.e. 5000.0, description containing
"Tickets: 2" and "Table: T3"); under an all-success environment at any clock
instant the batch generates the expected document with amount 5000.0 and
currency "LKR", sends one email to jane@example.com with attachment
"Invoice_TCK-001.pdf", writes "SENT " followed by the timestamp to row 2, and
counts one processed row. -/
theorem claim_C8_end_to_end :
    ∀ t : PyDateTime,
      parseRow row8 =
        { client := "Jane Doe", email := "jane@example.com", invoice_no := "TCK-001"
          inv_date := "2024-05-01", due_date := "", desc := "Tickets: 2, Table: T3"
          amount_raw := "5000LKR", amountDigits := "5000", status := "" } ∧
      ("Tickets: 2").data <:+: (parseRow row8).desc.data ∧
      ("Table: T3").data <:+: (parseRow row8).desc.data ∧
      (process_invoices (envAt t) [row8]).docs =
        [{ client := "Jane Doe", email := "jane@example.com", invoice_no := "TCK-001"
           invoice_date := "2024-05-01", due_date := "", desc := "Tickets: 2, Table: T3"
           amount := 5000, currency := "LKR" }] ∧
      (process_invoices (envAt t) [row8]).sends.map SendEvent.toAddr
        = ["jane@example.com"] ∧
      (process_invoices (envAt t) [row8]).sends.map SendEvent.filename
        = ["Invoice_TCK-001.pdf"] ∧
      (process_invoices (envAt t) [row8]).writes = [⟨2, "SENT " ++ fmtTimestamp t⟩] ∧
      (process_invoices (envAt t) [row8]).processed = 1 := by
  intro t
  exact ⟨by decide, by decide, by decide, rfl, rfl, rfl, rfl, rfl⟩

/-- C6 counterexample: for the empty batch the run logs only
"No data rows found." and the total-count summary line is never reported,
so the reporting clause does not hold for every input batch. -/
theorem claim_C6_empty_batch_counterexample :
    (process_invoices env0 []).logs = ["No data rows found."] ∧
    ("Done. Processed: " ++ natToDec (process_invoices env0 []).processed
        ++ " invoice(s).") ∉ (process_invoices env0 []).logs := by
  constructor
  · decide
  · decide
